import Mathlib

/-!
Shallow embedding of the agent core of the Docuchat repository
(`src/agent/base.py`, `src/agent/registry.py`, `src/agent/tools.py`,
`src/agent/agent.py`): the ReAct-style agent loop, the tool contract,
the concrete search/finish tools, result truncation and citation
harvesting.  Python's dynamic values appearing in tool-call argument
dictionaries are modelled by `JValue` (strings and lists of strings are
the only shapes the oracle interface of the spec produces); Python
exceptions are modelled by `Except PyErr`; `None`-able fields are
`Option`s; truthiness tests are modelled explicitly where the code
performs them (`if not self._channel_id`, `final_result or ...`).
-/

namespace Docuchat

/-- Model of a Python exception value; `pyStr` plays the role of `str(e)`. -/
inductive PyErr where
  | typeError (msg : String)
  | other (msg : String)
deriving DecidableEq, Repr

/-- Python `str(e)` on a modelled exception. -/
def pyStr : PyErr → String
  | .typeError m => m
  | .other m => m

/-- Model of a dynamic Python value as it appears in oracle-supplied
tool-call argument dictionaries: a string or a list of strings (the two
shapes the oracle interface of the tool schemas produces). -/
inductive JValue where
  | str (s : String)
  | strList (xs : List String)
deriving DecidableEq, Repr

/-- Python truthiness of a modelled value: `""` and `[]` are falsy. -/
def jFalsy : JValue → Bool
  | .str s => s == ""
  | .strList xs => xs.isEmpty

/-- Python iteration over a modelled value: a string iterates by
characters, a list by elements. -/
def jIter : JValue → List String
  | .str s => s.toList.map (fun c => String.singleton c)
  | .strList xs => xs

/-- A tool-call argument dictionary (`tool_input` in `agent.py`). -/
abbrev Args := List (String × JValue)

/-- Dictionary lookup, `d.get(k)` returning `None` when absent. -/
def Args.get? (args : Args) (k : String) : Option JValue :=
  match args with
  | [] => none
  | (k2, v) :: rest => if k2 == k then some v else Args.get? rest k

/-- Dictionary lookup with default, `d.get(k, dflt)`. -/
def Args.getD (args : Args) (k : String) (dflt : JValue) : JValue :=
  (Args.get? args k).getD dflt

/-- Result of a tool execution (`ToolResult` in `base.py`). -/
structure ToolResult where
  success : Bool
  output : String
  error : Option String := none
deriving DecidableEq, Repr

/-- One entry of the `sources` list returned by the injected search
function (`{source, content}`); the `.get` defaults of `tools.py`
(`"unknown"` / `""`) apply when a field is missing. -/
structure Source where
  source : Option String
  content : Option String
deriving DecidableEq, Repr

/-- Return value of the injected search function:
`{sources: [...], error?: str}`. -/
structure SearchResp where
  sources : List Source
  error : Option String := none
deriving DecidableEq, Repr

/-- Return value of the plain-generation oracle `gemini.generate`:
`{text: str?}`. -/
structure GenResp where
  text : Option String
deriving DecidableEq, Repr

/-- One recorded source of the run (`{"source": ..., "content": ...}`
entries of `Agent.sources_used`). -/
structure SourceRef where
  source : String
  content : String
deriving DecidableEq, Repr

/-- A structured tool invocation returned by the tool-selection oracle. -/
structure ToolCall where
  name : String
  args : Args
deriving DecidableEq, Repr

/-- Response of the tool-selection oracle `gemini.call_with_tools`:
`{text?, tool_call?, thinking?}`. -/
structure LLMResponse where
  text : Option String := none
  tool_call : Option ToolCall := none
  thinking : Option String := none
deriving DecidableEq, Repr

/-- Configuration for Agent behavior (`AgentConfig` in `agent.py`);
`verbose` only controls logging, which the model ignores. -/
structure AgentConfig where
  max_iterations : Nat := 3
  max_result_chars : Nat := 8000
  verbose : Bool := false
deriving DecidableEq, Repr

/-- Record of one thought-action-observation cycle (`Observation`). -/
structure Observation where
  thinking : Option String
  tool_name : String
  tool_input : Args
  result : ToolResult
deriving DecidableEq, Repr

/-- One entry of the accumulated context list built in `run()`
(step 6 of the loop): `{tool, input, result-or-error-string}`. -/
structure CtxEntry where
  tool : String
  input : Args
  result : String
deriving DecidableEq, Repr

/-- One chat turn of `conversation_history` / `self.messages`. -/
structure ChatMsg where
  role : String
  content : String
deriving DecidableEq, Repr

/-- The single-quote character, used by the Python `repr` of lists. -/
def squote : String := String.singleton (Char.ofNat 39)

/-- Python `repr` of a list of strings, as produced by an f-string
interpolating `registry.list_names()`. -/
def pyReprStrList (xs : List String) : String :=
  "[" ++ String.intercalate ", " (xs.map (fun x => squote ++ x ++ squote)) ++ "]"

/-- Escape of one character under `json.dumps(..., ensure_ascii=False)`.
Control characters other than newline, tab and carriage return are left
unescaped; no behaviour modelled here depends on them. -/
def jsonEscapeChar (c : Char) : String :=
  if c = '"' then "\\\""
  else if c = '\\' then "\\\\"
  else if c = '\n' then "\\n"
  else if c = '\t' then "\\t"
  else if c = '\r' then "\\r"
  else String.singleton c

/-- JSON escaping of a string body. -/
def jsonEscape (s : String) : String :=
  String.join (s.toList.map jsonEscapeChar)

/-- JSON rendering of a modelled dynamic value. -/
def jsonValue : JValue → String
  | .str s => "\"" ++ jsonEscape s ++ "\""
  | .strList xs =>
      "[" ++ String.intercalate ", " (xs.map (fun s => "\"" ++ jsonEscape s ++ "\"")) ++ "]"

/-- Model of `json.dumps(tool_input, ensure_ascii=False)` on an argument
dictionary (insertion order preserved). -/
def jsonDumps (args : Args) : String :=
  "\x7b" ++
    String.intercalate ", "
      (args.map (fun kv => "\"" ++ jsonEscape kv.1 ++ "\"" ++ ": " ++ jsonValue kv.2)) ++
  "\x7d"

/-- Python truthiness of the `_channel_id` field of the search tool:
`if not self._channel_id` fires on `None` and on the empty string. -/
def channelFalsy : Option String → Bool
  | none => true
  | some s => s == ""

/-- Truthiness of the `error` entry of a search response:
`if "error" in result and result["error"]` — the key must be present
and its value non-empty. -/
def errTruthy : Option String → Bool
  | none => false
  | some e => e != ""

/-- Rendering of one search hit, `"[Source i: <name>]\n<content>"`
(`tools.py`, `SearchDocumentsTool.execute`), with the `.get` defaults
`"unknown"` and `""`. -/
def formatSource (i : Nat) (s : Source) : String :=
  "[Source " ++ toString i ++ ": " ++ s.source.getD "unknown" ++ "]\n" ++ s.content.getD ""

/-- Rendering of the full hit list, numbered from 1 and joined with the
visual separator. -/
def formatSources (sources : List Source) : String :=
  String.intercalate "\n\n---\n\n"
    (sources.enum.map (fun p => formatSource (p.1 + 1) p.2))

/-- Body of `SearchDocumentsTool.execute(query)`.  The whole body runs
inside `try/except`, so an exception raised by the injected search
function (modelled by `Except.error`) is caught and reported as a
failed `ToolResult`; the method itself never raises.  The `channel`
argument is the tool's `_channel_id` field at call time. -/
def SearchDocumentsTool.execute (channel : Option String)
    (search_fn : String → JValue → Except PyErr SearchResp) (query : JValue) : ToolResult :=
  if channelFalsy channel then
    { success := false, output := "", error := some "Channel ID not set. Cannot perform search." }
  else
    match search_fn (channel.getD "") query with
    | .error e =>
        { success := false, output := "", error := some ("Search failed: " ++ pyStr e) }
    | .ok result =>
        if errTruthy result.error then
          { success := false, output := "", error := result.error }
        else
          match result.sources with
          | [] =>
              { success := true,
                output := "No relevant documents found for this query. Try a different search query." }
          | _ =>
              { success := true,
                output := "Found " ++ toString result.sources.length ++
                  " relevant sections:\n\n" ++ formatSources result.sources }

/-- Body of `FinishTool.execute(answer, sources_used=None)`: always
succeeds, `output` is the literal answer (the agent loop intercepts the
`finish` name before ever dispatching to this body). -/
def FinishTool.execute (answer : String) (_sources_used : Option (List String)) : ToolResult :=
  { success := true, output := answer }

/-- A tool as the agent sees it: its registry name, whether it exposes
the `set_channel_id` hook (`hasattr(tool, 'set_channel_id')`), the
`_channel_id`-like state it holds before the agent touches it, the
parameters of its `execute` signature (used by Python keyword-argument
binding: every required parameter must be supplied, every supplied key
must be accepted), and the body of `execute`.  The body receives the
channel state in effect at the call and may raise (`Except.error`) —
the abstract `Tool` contract forbids that, but nothing enforces it. -/
structure Tool where
  name : String
  hasSetChannelId : Bool
  initChannel : Option String
  requiredParams : List String
  acceptedParams : List String
  body : Option String → Args → Except PyErr ToolResult

/-- Keyword-argument binding check for `tool.execute(**tool_input)`:
binding succeeds iff every required parameter is present and every
supplied key names an accepted parameter. -/
def bindOk (t : Tool) (args : Args) : Bool :=
  t.requiredParams.all (fun p => (Args.get? args p).isSome) &&
  args.all (fun kv => t.acceptedParams.contains kv.1)

/-- Lookup in the registry dictionary (`ToolRegistry.get`): built by
inserting tools in list order, so on a name collision the last tool
wins. -/
def registryGet (tools : List Tool) (name : String) : Option Tool :=
  match tools with
  | [] => none
  | t :: ts =>
      match registryGet ts name with
      | some u => some u
      | none => if t.name == name then some t else none

/-- The registry's key list (`ToolRegistry.list_names`): insertion
order, first occurrence kept on collision. -/
def listNames (tools : List Tool) : List String :=
  tools.foldl (fun acc t => if acc.contains t.name then acc else acc ++ [t.name]) []

/-- The synthetic error message for a tool name absent from the
registry, including the Python `repr` of the name list interpolated by
the f-string. -/
def unknownToolMsg (name : String) (tools : List Tool) : String :=
  "Unknown tool: " ++ name ++ ". Available: " ++ pyReprStrList (listNames tools)

/-- Output truncation performed by `_execute_tool` after a successful
execution: strictly longer than `max_result_chars` is cut to the first
`max_result_chars` characters and annotated with the original length. -/
def truncateResult (cfg : AgentConfig) (r : ToolResult) : ToolResult :=
  if r.success && decide (cfg.max_result_chars < r.output.length) then
    { r with output := r.output.take cfg.max_result_chars ++
        "\n\n...(truncated, " ++ toString r.output.length ++ " total chars)" }
  else r

/-- Model of `Agent._execute_tool(tool_name, tool_input, channel_id)`:
unknown names yield a synthetic failed `ToolResult`; for a known tool
the agent first sets the channel hook when present, then calls
`tool.execute(**tool_input)` — a keyword-binding mismatch raises a
`TypeError` that nothing here catches, and an exception escaping the
body also propagates; a returned result is truncated. -/
def executeTool (reg : List Tool) (cfg : AgentConfig) (channel_id : String)
    (tool_name : String) (tool_input : Args) : Except PyErr ToolResult :=
  match registryGet reg tool_name with
  | none =>
      .ok { success := false, output := "", error := some (unknownToolMsg tool_name reg) }
  | some tool =>
      let ch := if tool.hasSetChannelId then some channel_id else tool.initChannel
      if bindOk tool tool_input then
        match tool.body ch tool_input with
        | .error e => .error e
        | .ok result => .ok (truncateResult cfg result)
      else
        .error (.typeError ("execute() got arguments not matching its signature: " ++ tool_name))

/-- The argument `query` as passed to the search body; binding
guarantees the key is present, the default is never reached. -/
def queryArg (args : Args) : JValue :=
  (Args.get? args "query").getD (.str "")

/-- The `SearchDocumentsTool` instance as a registry entry: one
required parameter `query`, carries the `set_channel_id` hook, starts
with no channel assigned, body never raises (its `try/except` is inside
`SearchDocumentsTool.execute`). -/
def searchTool (search_fn : String → JValue → Except PyErr SearchResp) : Tool :=
  { name := "search_documents"
    hasSetChannelId := true
    initChannel := none
    requiredParams := ["query"]
    acceptedParams := ["query"]
    body := fun ch args => .ok (SearchDocumentsTool.execute ch search_fn (queryArg args)) }

/-- The `FinishTool` instance as a registry entry: required `answer`,
optional `sources_used`, no channel hook, body never raises. -/
def finishTool : Tool :=
  { name := "finish"
    hasSetChannelId := false
    initChannel := none
    requiredParams := ["answer"]
    acceptedParams := ["answer", "sources_used"]
    body := fun _ args =>
      .ok (FinishTool.execute
        (match Args.get? args "answer" with
         | some (.str s) => s
         | _ => "")
        (match Args.get? args "sources_used" with
         | some (.strList xs) => some xs
         | _ => none)) }

/-- The tool set the system prompt describes: the search tool and the
finish tool. -/
def defaultRegistry (search_fn : String → JValue → Except PyErr SearchResp) : List Tool :=
  [searchTool search_fn, finishTool]

/-- The system prompt constant `RAG_AGENT_SYSTEM_PROMPT` of `agent.py`. -/
def RAG_AGENT_SYSTEM_PROMPT : String :=
  "You are a document analysis assistant. Your task is to answer user questions based on uploaded documents.\n\n" ++
  "## Available Tools\nYou have access to the following tools:\n" ++
  "1. **search_documents**: Search for relevant information in the uploaded documents\n" ++
  "2. **finish**: Complete the task and provide the final answer\n\n" ++
  "## Instructions\n" ++
  "1. When the user asks a question, use the search_documents tool to find relevant information\n" ++
  "2. If the search results are insufficient, try searching with different keywords\n" ++
  "3. Once you have enough information, use the finish tool to provide a complete answer\n" ++
  "4. Always cite your sources in the answer\n\n" ++
  "## Important Rules\n" ++
  "- You MUST use the finish tool to complete the task\n" ++
  "- Include citations from the documents in your final answer\n" ++
  "- If no relevant information is found after searching, inform the user honestly\n" ++
  "- Do not make up information - only use what you find in the documents\n"

/-- Rendering of one accumulated-context entry inside the
tool-selection prompt (`_call_llm_with_tools`), with the per-entry
preview truncation and its single-newline annotation. -/
def renderCtx (cfg : AgentConfig) (i : Nat) (c : CtxEntry) : List String :=
  let preview := c.result.take cfg.max_result_chars
  let preview :=
    if decide (cfg.max_result_chars < c.result.length) then
      preview ++ "\n...(truncated, " ++ toString c.result.length ++ " total chars)"
    else preview
  ["\n### Action " ++ toString i ++ ": " ++ c.tool,
   "Input: " ++ jsonDumps c.input,
   "Result: " ++ preview]

/-- The full prompt assembled by `_call_llm_with_tools` from the system
prompt, the user question and the accumulated context. -/
def buildPrompt (cfg : AgentConfig) (sysPrompt query : String) (context : List CtxEntry) : String :=
  let parts := [sysPrompt, "\n\nUser Question: " ++ query]
  let parts :=
    if context.isEmpty then parts
    else parts ++ ["\n\n## Previous Actions and Results:"] ++
      (context.enum.map (fun p => renderCtx cfg (p.1 + 1) p.2)).flatten
  let parts := parts ++
    ["\n\nBased on the above, decide your next action. Use search_documents to find more information, or use finish to provide the final answer."]
  String.intercalate "\n" parts

/-- The prompt assembled by `_generate_forced_answer`: question plus
the result strings of exactly the accumulated entries whose tool is
`search_documents`. -/
def forcedPrompt (query : String) (context : List CtxEntry) : String :=
  let parts := ["Based on the search results below, provide a concise answer to the question.",
                "\nQuestion: " ++ query,
                "\n\nSearch Results:"]
  let parts := parts ++
    (context.filter (fun c => c.tool == "search_documents")).map (fun c => c.result)
  let parts := parts ++ ["\n\nProvide your answer now. Cite sources where possible."]
  String.intercalate "\n" parts

/-- Model of `_generate_forced_answer`: calls the plain-generation
oracle on the forced prompt; its whole body is inside `try/except`, so
an oracle exception degrades to a fixed-format failure string and
nothing propagates. -/
def generateForcedAnswer (genOracle : String → Except PyErr GenResp)
    (query : String) (context : List CtxEntry) : String :=
  match genOracle (forcedPrompt query context) with
  | .error e => "Failed to generate answer: " ++ pyStr e
  | .ok r => r.text.getD "Unable to generate answer."

/-- Drops a literal character sequence from the front of a text,
returning the remainder on success. -/
def dropLiteral : List Char → List Char → Option (List Char)
  | [], rest => some rest
  | _ :: _, [] => none
  | p :: ps, c :: cs => if p = c then dropLiteral ps cs else none

/-- One attempted match of the pattern `\[Source \d+: ([^\]]+)\]` at
the head of the text: the literal `"[Source "`, at least one digit,
the literal `": "`, at least one non-`]` character (the capture), a
closing `]`.  Returns the capture and the text after the match. -/
def matchSourceAt (l : List Char) : Option (String × List Char) :=
  match dropLiteral "[Source ".toList l with
  | none => none
  | some r1 =>
      match r1.span (fun c => c.isDigit) with
      | (ds, r2) =>
          if ds.isEmpty then none
          else
            match dropLiteral ": ".toList r2 with
            | none => none
            | some r3 =>
                match r3.span (fun c => c != ']') with
                | (nm, r4) =>
                    if nm.isEmpty then none
                    else
                      match r4 with
                      | ']' :: r5 => some (String.mk nm, r5)
                      | _ => none

/-- Left-to-right non-overlapping scan of `re.findall` over the source
pattern; the fuel argument bounds the recursion and is adequate at the
text length because every step consumes at least one character. -/
def scanAux : Nat → List Char → List String
  | 0, _ => []
  | _ + 1, [] => []
  | fuel + 1, c :: cs =>
      match matchSourceAt (c :: cs) with
      | some (nm, rest) => nm :: scanAux fuel rest
      | none => scanAux fuel cs

/-- All captures of `re.findall(r'\[Source \d+: ([^\]]+)\]', s)` in
scan order. -/
def scanSourceNames (s : String) : List String :=
  scanAux s.length s.toList

/-- One step of `_extract_sources`: append the name unless a source
with exactly that name is already recorded. -/
def recordSource (sources : List SourceRef) (name : String) : List SourceRef :=
  if sources.any (fun s => s.source == name) then sources
  else sources ++ [{ source := name, content := "" }]

/-- Model of `Agent._extract_sources(search_output)`: fold every
scanned capture into the running source list with exact-string
deduplication. -/
def extractSources (sources : List SourceRef) (output : String) : List SourceRef :=
  (scanSourceNames output).foldl recordSource sources

/-- Sources recorded by the `finish` branch of the loop: present only
when the call carries a `sources_used` key, each iterated element
recorded with empty content. -/
def finishSources (args : Args) : List SourceRef :=
  match Args.get? args "sources_used" with
  | none => []
  | some v => (jIter v).map (fun n => { source := n, content := "" })

/-- The run-scoped mutable state of the agent during the while loop of
`run()`: the iteration counter, the observation log, the accumulated
context, the recorded sources, the finished flag and the final result
(a dynamic value, since `tool_input.get("answer", ...)` stores whatever
the oracle supplied). -/
structure LoopState where
  iteration : Nat
  observations : List Observation
  accumulated_context : List CtxEntry
  sources_used : List SourceRef
  is_finished : Bool
  final_result : Option JValue
deriving DecidableEq, Repr

/-- The run-scoped state as reset at the top of `run()`. -/
def initState : LoopState :=
  { iteration := 0
    observations := []
    accumulated_context := []
    sources_used := []
    is_finished := false
    final_result := none }

/-- The run-scoped state after one pass of the loop body that executed
a tool (steps 4-6 of `run()`): the iteration counter advanced, the
observation and context entries appended, and sources harvested when
the executed tool was a successful `search_documents`. -/
def stepState (s : LoopState) (resp : LLMResponse) (tc : ToolCall) (result : ToolResult) :
    LoopState :=
  { iteration := s.iteration + 1
    observations := s.observations ++
      [{ thinking := resp.thinking, tool_name := tc.name,
         tool_input := tc.args, result := result }]
    accumulated_context := s.accumulated_context ++
      [{ tool := tc.name, input := tc.args,
         result := if result.success then result.output
                   else "Error: " ++ result.error.getD "None" }]
    sources_used := if tc.name == "search_documents" && result.success then
        extractSources s.sources_used result.output
      else s.sources_used
    is_finished := s.is_finished
    final_result := s.final_result }

/-- The structure returned by `run()`:
`{response, sources, iterations}`. -/
structure RunResult where
  response : JValue
  sources : List SourceRef
  iterations : Nat
deriving DecidableEq, Repr

/-- The `final_result or "No response generated."` fallback applied to
build the `response` field: `None` and falsy values fall back to the
literal. -/
def finalResponse : Option JValue → JValue
  | none => .str "No response generated."
  | some v => if jFalsy v then .str "No response generated." else v

/-- The messages seeded at the start of `run()` (`self.messages`); the
list is written but never read back by the loop. -/
def initialMessages (conversation_history : List ChatMsg) (query : String) : List ChatMsg :=
  conversation_history ++ [{ role := "user", content := query }]

/-- The while loop of `Agent.run`.  The fuel argument is the number of
remaining passes, `max_iterations - iteration`, so the recursion is the
exact image of `while iteration < max_iterations`.  The tool-selection
oracle is indexed by call order (its `n`-th invocation of the run sees
index `n`) and receives the assembled prompt; it returns `none` when
`_call_llm_with_tools` would return `None`, i.e. when the underlying
call raised or produced nothing usable.  A `TypeError` from keyword
binding or an exception escaping a tool body propagates out of the
loop, as nothing in `run()` catches around `_execute_tool`. -/
def agentLoop (reg : List Tool) (cfg : AgentConfig) (sysPrompt : String)
    (oracle : Nat → String → Option LLMResponse) (channel_id query : String) :
    Nat → LoopState → Except PyErr LoopState
  | 0, s => .ok s
  | fuel + 1, s =>
    let iter := s.iteration + 1
    let prompt := buildPrompt cfg sysPrompt query s.accumulated_context
    match oracle s.iteration prompt with
    | none =>
        .ok { s with iteration := iter,
                     final_result := some (.str "Failed to get response from AI.") }
    | some resp =>
        match resp.tool_call with
        | none =>
            .ok { s with iteration := iter, is_finished := true,
                         final_result := some (.str (resp.text.getD "No response generated.")) }
        | some tc =>
            if tc.name == "finish" then
              .ok { s with iteration := iter, is_finished := true,
                           final_result := some (Args.getD tc.args "answer" (.str "Task completed.")),
                           sources_used := s.sources_used ++ finishSources tc.args }
            else
              match executeTool reg cfg channel_id tc.name tc.args with
              | .error e => .error e
              | .ok result =>
                  let obs : Observation :=
                    { thinking := resp.thinking, tool_name := tc.name,
                      tool_input := tc.args, result := result }
                  let ctxe : CtxEntry :=
                    { tool := tc.name, input := tc.args,
                      result := if result.success then result.output
                                else "Error: " ++ result.error.getD "None" }
                  let sources2 :=
                    if tc.name == "search_documents" && result.success then
                      extractSources s.sources_used result.output
                    else s.sources_used
                  agentLoop reg cfg sysPrompt oracle channel_id query fuel
                    { iteration := iter
                      observations := s.observations ++ [obs]
                      accumulated_context := s.accumulated_context ++ [ctxe]
                      sources_used := sources2
                      is_finished := s.is_finished
                      final_result := s.final_result }

/-- The final run-scoped state of `Agent.run`: the loop starting from
the reset state, followed by the budget-exhaustion check — when the
loop ended with `iteration >= max_iterations` and the finished flag
still unset, the forced answer of `_generate_forced_answer` replaces
whatever `final_result` held. -/
def runState (reg : List Tool) (cfg : AgentConfig) (sysPrompt : String)
    (oracle : Nat → String → Option LLMResponse)
    (genOracle : String → Except PyErr GenResp)
    (channel_id query : String) : Except PyErr LoopState :=
  match agentLoop reg cfg sysPrompt oracle channel_id query cfg.max_iterations initState with
  | .error e => .error e
  | .ok s =>
      if decide (cfg.max_iterations ≤ s.iteration) && !s.is_finished then
        let forced := generateForcedAnswer genOracle query s.accumulated_context
        .ok { s with final_result := some (.str forced) }
      else
        .ok s

/-- Model of `Agent.run(channel_id, query, conversation_history)`: the
returned `{response, sources, iterations}` dictionary, or the
propagated exception.  The conversation history only seeds the unused
`self.messages` list, so it does not influence the result. -/
def Agent.run (reg : List Tool) (cfg : AgentConfig) (sysPrompt : String)
    (oracle : Nat → String → Option LLMResponse)
    (genOracle : String → Except PyErr GenResp)
    (channel_id query : String) (_conversation_history : List ChatMsg) : Except PyErr RunResult :=
  match runState reg cfg sysPrompt oracle genOracle channel_id query with
  | .error e => .error e
  | .ok s =>
      .ok { response := finalResponse s.final_result
            sources := s.sources_used
            iterations := s.iteration }

/-- True when a modelled computation ended in a propagated exception. -/
def raised : Except PyErr α → Bool
  | .error _ => true
  | .ok _ => false

/-- Number of recorded sources carrying exactly the given name. -/
def countSource (l : List SourceRef) (n : String) : Nat :=
  (l.filter (fun s => s.source == n)).length

/-- Number of iterations reported by a completed run; a run that raised
reports zero. -/
def iterationsOf : Except PyErr RunResult → Nat
  | .ok r => r.iterations
  | .error _ => 0

/-- A concrete injected search function returning one hit, used by the
concrete-run theorems below. -/
def demoSearchFn : String → JValue → Except PyErr SearchResp := fun _ _ =>
  .ok { sources := [{ source := some "report.pdf", content := some "Revenue was 5M" }] }

/-- The registry the system prompt describes, wired to the demo search
function. -/
def demoRegistry : List Tool := defaultRegistry demoSearchFn

/-- A concrete plain-generation oracle that always produces text. -/
def demoGen : String → Except PyErr GenResp := fun _ => .ok { text := some "forced answer" }

/-- An oracle requesting `search_documents` with an argument dictionary
missing the required `query` key. -/
def badArgsOracle : Nat → String → Option LLMResponse := fun _ _ =>
  some { tool_call := some { name := "search_documents", args := [] } }

/-- An oracle always requesting `search_documents` with a well-formed
argument dictionary. -/
def searchOracle : Nat → String → Option LLMResponse := fun _ _ =>
  some { tool_call := some { name := "search_documents", args := [("query", .str "revenue")] } }

/-- An oracle whose tool-selection call always fails. -/
def failingOracle : Nat → String → Option LLMResponse := fun _ _ => none

/-- An oracle requesting a well-formed search on its first call and
failing on every later call. -/
def failAfterSearchOracle : Nat → String → Option LLMResponse := fun n _ =>
  if n == 0 then
    some { tool_call := some { name := "search_documents", args := [("query", .str "revenue")] } }
  else none

/-- An oracle whose first call is `finish` with an empty-string answer. -/
def emptyAnswerOracle : Nat → String → Option LLMResponse := fun _ _ =>
  some { tool_call := some { name := "finish", args := [("answer", .str "")] } }

/-- The argument dictionary of the concrete `finish` call used below:
answer "X" plus a `sources_used` list. -/
def finishArgs : Args := [("answer", .str "X"), ("sources_used", .strList ["report.pdf"])]

/-- An oracle whose first call is `finish` with answer "X" and a
`sources_used` list. -/
def finishOracle : Nat → String → Option LLMResponse := fun _ _ =>
  some { tool_call := some { name := "finish", args := finishArgs } }

/-- An oracle naming a tool absent from the registry on its first call
and returning plain text on every later call. -/
def unknownToolOracle : Nat → String → Option LLMResponse := fun n _ =>
  if n == 0 then some { tool_call := some { name := "bogus_tool", args := [] } }
  else some { text := some "done" }

/-- The failed `ToolResult` produced by the search tool when its
channel state is falsy. -/
def channelNotSetResult : ToolResult :=
  { success := false, output := "", error := some "Channel ID not set. Cannot perform search." }

/-! Theorems.  Each claim of the specification is settled below; shared
helper lemmas about the loop and the citation fold come first. -/

/-- Number of recorded sources carrying exactly the given name. -/
lemma any_source_iff_count (S : List SourceRef) (m : String) :
    S.any (fun s => s.source == m) = true ↔ 0 < countSource S m := by
  rw [List.any_eq_true]
  unfold countSource
  rw [List.length_pos]
  constructor
  · rintro ⟨x, hx, hpx⟩ hnil
    have := List.filter_eq_nil_iff.mp hnil x hx
    simp [hpx] at this
  · intro hne
    rcases List.exists_mem_of_ne_nil _ hne with ⟨x, hx⟩
    rw [List.mem_filter] at hx
    exact ⟨x, hx.1, hx.2⟩

lemma countSource_append (S T : List SourceRef) (n : String) :
    countSource (S ++ T) n = countSource S n + countSource T n := by
  unfold countSource
  rw [List.filter_append, List.length_append]

lemma countSource_record_ne (S : List SourceRef) (m n : String) (h : n ≠ m) :
    countSource (recordSource S m) n = countSource S n := by
  unfold recordSource
  split
  · rfl
  · rw [countSource_append]
    have : countSource [{ source := m, content := "" }] n = 0 := by
      unfold countSource
      simp [Ne.symm h]
    omega

lemma countSource_record_pos (S : List SourceRef) (m : String) :
    0 < countSource (recordSource S m) m := by
  unfold recordSource
  split
  · rename_i hany
    exact (any_source_iff_count S m).mp hany
  · rw [countSource_append]
    have : countSource [{ source := m, content := "" }] m = 1 := by
      unfold countSource
      simp
    omega

lemma countSource_record_le (S : List SourceRef) (m : String)
    (hInv : ∀ k, countSource S k ≤ 1) : ∀ k, countSource (recordSource S m) k ≤ 1 := by
  intro k
  by_cases hk : k = m
  · subst hk
    unfold recordSource
    split
    · exact hInv k
    · rename_i hany
      rw [countSource_append]
      have h0 : countSource S k = 0 := by
        by_contra hne
        exact hany ((any_source_iff_count S k).mpr (by omega))
      have h1 : countSource [{ source := k, content := "" }] k = 1 := by
        unfold countSource
        simp
      omega
  · rw [countSource_record_ne S m k hk]
    exact hInv k

lemma countSource_foldl (names : List String) :
    ∀ S n, (∀ k, countSource S k ≤ 1) →
      countSource (names.foldl recordSource S) n =
        if n ∈ names ∨ 0 < countSource S n then 1 else 0 := by
  induction names with
  | nil =>
      intro S n hInv
      simp only [List.foldl_nil, List.not_mem_nil, false_or]
      have := hInv n
      split <;> omega
  | cons m rest ih =>
      intro S n hInv
      rw [List.foldl_cons, ih (recordSource S m) n (countSource_record_le S m hInv)]
      by_cases hnm : n = m
      · subst hnm
        have hpos := countSource_record_pos S n
        simp [hpos, List.mem_cons]
      · rw [countSource_record_ne S m n hnm]
        simp [hnm]

lemma countSource_foldl_le (names : List String) :
    ∀ S, (∀ k, countSource S k ≤ 1) →
      ∀ k, countSource (names.foldl recordSource S) k ≤ 1 := by
  induction names with
  | nil => intro S h k; simpa using h k
  | cons m rest ih =>
      intro S h k
      rw [List.foldl_cons]
      exact ih (recordSource S m) (countSource_record_le S m h) k

/-- C9: within one run, harvesting citations from successful
`search_documents` outputs deduplicates by exact string match —
processing the formatted outputs of two searches records each name
captured by the `[Source N: name]` scan exactly once in the source
list, however the captures overlap, and records nothing else. -/
theorem claim_C9_citation_dedup (o1 o2 : String) (n : String) :
    countSource (extractSources (extractSources [] o1) o2) n =
      if n ∈ scanSourceNames o1 ++ scanSourceNames o2 then 1 else 0 := by
  unfold extractSources
  have hInv0 : ∀ k, countSource ([] : List SourceRef) k ≤ 1 := by
    intro k
    simp [countSource]
  have h1 := countSource_foldl (scanSourceNames o1) [] n hInv0
  have hInv1 := countSource_foldl_le (scanSourceNames o1) [] hInv0
  rw [countSource_foldl (scanSourceNames o2) _ n hInv1, h1]
  have hc0 : countSource ([] : List SourceRef) n = 0 := by simp [countSource]
  rw [hc0]
  simp only [lt_irrefl, or_false, List.mem_append]
  by_cases hm1 : n ∈ scanSourceNames o1 <;> by_cases hm2 : n ∈ scanSourceNames o2 <;>
    simp [hm1, hm2]

/-- C5: a successful tool output of length exactly `max_result_chars`
is left untruncated by `_execute_tool`; an output strictly longer is
cut to its first `max_result_chars` characters and annotated with a
`...(truncated, N total chars)` suffix recording the exact original
character count. -/
theorem claim_C5_truncation (cfg : AgentConfig) (r : ToolResult) (hs : r.success = true) :
    (r.output.length = cfg.max_result_chars → truncateResult cfg r = r) ∧
    (cfg.max_result_chars < r.output.length →
      truncateResult cfg r =
        { success := r.success, error := r.error,
          output := r.output.take cfg.max_result_chars ++ "\n\n...(truncated, " ++
            toString r.output.length ++ " total chars)" }) := by
  constructor
  · intro h
    unfold truncateResult
    rw [h]
    simp
  · intro h
    unfold truncateResult
    rw [hs, decide_eq_true h]
    simp

theorem claim_C5_witness :
    (({ success := true, output := "abcdef", error := none } : ToolResult).success = true ∧
      ({ success := true, output := "abcde", error := none } : ToolResult).success = true) ∧
    truncateResult { max_result_chars := 5 } { success := true, output := "abcde", error := none } =
      { success := true, output := "abcde", error := none } ∧
    truncateResult { max_result_chars := 5 } { success := true, output := "abcdef", error := none } =
      { success := true, output := "abcde\n\n...(truncated, 6 total chars)", error := none } := by
  refine ⟨⟨rfl, rfl⟩, ?_, ?_⟩
  · exact (claim_C5_truncation { max_result_chars := 5 }
      { success := true, output := "abcde", error := none } rfl).1 rfl
  · have h := (claim_C5_truncation { max_result_chars := 5 }
      { success := true, output := "abcdef", error := none } rfl).2 (by decide)
    exact h.trans rfl

/-- C8: `SearchDocumentsTool.execute` fails with the fixed
channel-not-set error when no channel was ever assigned, and when the
injected search function reports zero sources (and no error) it
succeeds with the fixed output inviting a reformulated query, so that
no-results is distinguished from failure. -/
theorem claim_C8_search_tool (search_fn : String → JValue → Except PyErr SearchResp)
    (ch : String) (q : JValue) (r : SearchResp)
    (hch : ch ≠ "") (hfn : search_fn ch q = Except.ok r)
    (herr : errTruthy r.error = false) (hsrc : r.sources = []) :
    SearchDocumentsTool.execute none search_fn q =
      { success := false, output := "", error := some "Channel ID not set. Cannot perform search." } ∧
    SearchDocumentsTool.execute (some ch) search_fn q =
      { success := true,
        output := "No relevant documents found for this query. Try a different search query.",
        error := none } := by
  constructor
  · rfl
  · unfold SearchDocumentsTool.execute
    have hfalsy : channelFalsy (some ch) = false := by
      simp [channelFalsy, hch]
    rw [hfalsy]
    simp only [Bool.false_eq_true, if_false, Option.getD_some, hfn, herr, hsrc]

theorem claim_C8_witness :
    (("c" : String) ≠ "" ∧
      (fun (_ : String) (_ : JValue) => (Except.ok { sources := [] } : Except PyErr SearchResp)) "c" (.str "q") =
        Except.ok { sources := [] } ∧
      errTruthy (SearchResp.mk [] none).error = false ∧
      (SearchResp.mk [] none).sources = []) ∧
    SearchDocumentsTool.execute none (fun _ _ => .ok { sources := [] }) (.str "q") =
      { success := false, output := "", error := some "Channel ID not set. Cannot perform search." } ∧
    SearchDocumentsTool.execute (some "c") (fun _ _ => .ok { sources := [] }) (.str "q") =
      { success := true,
        output := "No relevant documents found for this query. Try a different search query.",
        error := none } := by
  refine ⟨⟨by decide, rfl, rfl, rfl⟩, ?_⟩
  exact claim_C8_search_tool (fun _ _ => .ok { sources := [] }) "c" (.str "q")
    { sources := [] } (by decide) rfl rfl rfl

lemma raised_false_iff (e : Except PyErr α) : raised e = false ↔ ∃ r, e = .ok r := by
  cases e <;> simp [raised]

lemma registryGet_mem (tools : List Tool) (name : String) :
    ∀ t, registryGet tools name = some t → t ∈ tools := by
  induction tools with
  | nil => intro t h; simp [registryGet] at h
  | cons a ts ih =>
      intro t h
      simp only [registryGet] at h
      split at h
      · rename_i u heq
        injection h with h2
        subst h2
        exact List.mem_cons_of_mem _ (ih _ heq)
      · split at h
        · injection h with h2
          subst h2
          exact List.mem_cons_self _ _
        · cases h

lemma agentLoop_iteration_le (reg : List Tool) (cfg : AgentConfig) (sys : String)
    (o : Nat → String → Option LLMResponse) (ch q : String) :
    ∀ fuel s s2, agentLoop reg cfg sys o ch q fuel s = .ok s2 →
      s2.iteration ≤ s.iteration + fuel := by
  intro fuel
  induction fuel with
  | zero =>
      intro s s2 h
      simp only [agentLoop] at h
      injection h with h2
      subst h2
      omega
  | succ n ih =>
      intro s s2 h
      simp only [agentLoop] at h
      split at h
      · injection h with h2
        subst h2
        show s.iteration + 1 ≤ s.iteration + (n + 1)
        omega
      · split at h
        · injection h with h2
          subst h2
          show s.iteration + 1 ≤ s.iteration + (n + 1)
          omega
        · split at h
          · injection h with h2
            subst h2
            show s.iteration + 1 ≤ s.iteration + (n + 1)
            omega
          · split at h
            · exact Except.noConfusion h
            · have h3 := ih _ _ h
              have h4 : s2.iteration ≤ s.iteration + 1 + n := h3
              omega

lemma agentLoop_oracle_congr (reg : List Tool) (cfg : AgentConfig) (sys : String)
    (ch q : String) (o1 o2 : Nat → String → Option LLMResponse) :
    ∀ fuel s, (∀ i pr, s.iteration ≤ i → i < s.iteration + fuel → o1 i pr = o2 i pr) →
      agentLoop reg cfg sys o1 ch q fuel s = agentLoop reg cfg sys o2 ch q fuel s := by
  intro fuel
  induction fuel with
  | zero => intro s hag; rfl
  | succ n ih =>
      intro s hag
      simp only [agentLoop]
      rw [hag s.iteration (buildPrompt cfg sys q s.accumulated_context) (Nat.le_refl _) (by omega)]
      split
      · rfl
      · split
        · rfl
        · split
          · rfl
          · split
            · rfl
            · apply ih
              intro i pr hi1 hi2
              have hi3 : s.iteration + 1 ≤ i := hi1
              have hi4 : i < s.iteration + 1 + n := hi2
              exact hag i pr (by omega) (by omega)

lemma executeTool_no_raise (reg : List Tool) (cfg : AgentConfig) (ch nm : String) (args : Args)
    (hbody : ∀ t ∈ reg, ∀ c a, raised (t.body c a) = false)
    (hbind : ∀ t, registryGet reg nm = some t → bindOk t args = true) :
    ∃ r, executeTool reg cfg ch nm args = .ok r := by
  unfold executeTool
  split
  · exact ⟨_, rfl⟩
  · rename_i t hreg
    rw [if_pos (hbind t hreg)]
    have hb := hbody t (registryGet_mem reg nm t hreg)
      (if t.hasSetChannelId then some ch else t.initChannel) args
    rw [raised_false_iff] at hb
    obtain ⟨r, hr⟩ := hb
    rw [hr]
    exact ⟨_, rfl⟩

lemma agentLoop_no_raise (reg : List Tool) (cfg : AgentConfig) (sys : String)
    (o : Nat → String → Option LLMResponse) (ch q : String)
    (hbody : ∀ t ∈ reg, ∀ c a, raised (t.body c a) = false)
    (hbind : ∀ n pr resp tc t, o n pr = some resp → resp.tool_call = some tc →
      tc.name ≠ "finish" → registryGet reg tc.name = some t → bindOk t tc.args = true) :
    ∀ fuel s, ∃ s2, agentLoop reg cfg sys o ch q fuel s = .ok s2 := by
  intro fuel
  induction fuel with
  | zero => intro s; exact ⟨s, rfl⟩
  | succ n ih =>
      intro s
      simp only [agentLoop]
      split
      · exact ⟨_, rfl⟩
      · rename_i resp heq
        split
        · exact ⟨_, rfl⟩
        · rename_i tc htc
          split
          · exact ⟨_, rfl⟩
          · rename_i hfin
            split
            · rename_i e hex
              have hfin2 : tc.name ≠ "finish" := by
                intro hc
                exact hfin (by rw [hc]; exact beq_self_eq_true _)
              obtain ⟨r, hr⟩ := executeTool_no_raise reg cfg ch tc.name tc.args hbody
                (fun t ht => hbind s.iteration _ resp tc t heq htc hfin2 ht)
              rw [hex] at hr
              exact Except.noConfusion hr
            · exact ih _

lemma agentLoop_oracle_fail (reg : List Tool) (cfg : AgentConfig) (sys : String)
    (o : Nat → String → Option LLMResponse) (ch q : String) (j : Nat) :
    ∀ fuel s, s.is_finished = false → s.iteration ≤ j → j - s.iteration < fuel →
      (∀ i, s.iteration ≤ i → i < j → ∀ pr, ∃ resp tc r, o i pr = some resp ∧
        resp.tool_call = some tc ∧ tc.name ≠ "finish" ∧
        executeTool reg cfg ch tc.name tc.args = .ok r) →
      (∀ pr, o j pr = none) →
      ∃ s2, agentLoop reg cfg sys o ch q fuel s = .ok s2 ∧ s2.iteration = j + 1 ∧
        s2.final_result = some (.str "Failed to get response from AI.") ∧
        s2.is_finished = false := by
  intro fuel
  induction fuel with
  | zero =>
      intro s _ _ hfuel _ _
      omega
  | succ n ih =>
      intro s hsf hle hfuel hmid hfail
      rcases Nat.eq_or_lt_of_le hle with heq | hlt
      · simp only [agentLoop]
        rw [heq, hfail]
        refine ⟨_, rfl, rfl, rfl, hsf⟩
      · obtain ⟨resp, tc, r, ho, htc, hname, hex⟩ :=
          hmid s.iteration (Nat.le_refl _) hlt (buildPrompt cfg sys q s.accumulated_context)
        have hfin2 : (tc.name == "finish") = false := beq_eq_false_iff_ne.mpr hname
        simp only [agentLoop, ho, htc, hfin2, Bool.false_eq_true, if_false, hex]
        apply ih
        · exact hsf
        · show s.iteration + 1 ≤ j
          omega
        · show j - (s.iteration + 1) < n
          omega
        · intro i hi1 hi2 pr
          have hi3 : s.iteration + 1 ≤ i := hi1
          exact hmid i (by omega) hi2 pr
        · exact hfail

lemma agentLoop_step_fail (reg : List Tool) (cfg : AgentConfig) (sys : String)
    (o : Nat → String → Option LLMResponse) (ch q : String) (fuel : Nat) (s : LoopState)
    (ho : o s.iteration (buildPrompt cfg sys q s.accumulated_context) = none) :
    agentLoop reg cfg sys o ch q (fuel + 1) s =
      .ok { s with iteration := s.iteration + 1,
                   final_result := some (.str "Failed to get response from AI.") } := by
  simp only [agentLoop, ho]

lemma agentLoop_step_text (reg : List Tool) (cfg : AgentConfig) (sys : String)
    (o : Nat → String → Option LLMResponse) (ch q : String) (fuel : Nat) (s : LoopState)
    (resp : LLMResponse)
    (ho : o s.iteration (buildPrompt cfg sys q s.accumulated_context) = some resp)
    (htc : resp.tool_call = none) :
    agentLoop reg cfg sys o ch q (fuel + 1) s =
      .ok { s with iteration := s.iteration + 1, is_finished := true,
                   final_result := some (.str (resp.text.getD "No response generated.")) } := by
  simp only [agentLoop, ho, htc]

lemma agentLoop_step_finish (reg : List Tool) (cfg : AgentConfig) (sys : String)
    (o : Nat → String → Option LLMResponse) (ch q : String) (fuel : Nat) (s : LoopState)
    (resp : LLMResponse) (tc : ToolCall)
    (ho : o s.iteration (buildPrompt cfg sys q s.accumulated_context) = some resp)
    (htc : resp.tool_call = some tc)
    (hname : (tc.name == "finish") = true) :
    agentLoop reg cfg sys o ch q (fuel + 1) s =
      .ok { s with iteration := s.iteration + 1, is_finished := true,
                   final_result := some (Args.getD tc.args "answer" (.str "Task completed.")),
                   sources_used := s.sources_used ++ finishSources tc.args } := by
  simp only [agentLoop, ho, htc, hname, if_true]

lemma agentLoop_step_tool (reg : List Tool) (cfg : AgentConfig) (sys : String)
    (o : Nat → String → Option LLMResponse) (ch q : String) (fuel : Nat) (s : LoopState)
    (resp : LLMResponse) (tc : ToolCall) (result : ToolResult)
    (ho : o s.iteration (buildPrompt cfg sys q s.accumulated_context) = some resp)
    (htc : resp.tool_call = some tc)
    (hname : (tc.name == "finish") = false)
    (hex : executeTool reg cfg ch tc.name tc.args = .ok result) :
    agentLoop reg cfg sys o ch q (fuel + 1) s =
      agentLoop reg cfg sys o ch q fuel (stepState s resp tc result) := by
  simp only [agentLoop, ho, htc, hname, Bool.false_eq_true, if_false, hex, stepState]

lemma runState_of_loop_ok (reg : List Tool) (cfg : AgentConfig) (sys : String)
    (o : Nat → String → Option LLMResponse) (gen : String → Except PyErr GenResp)
    (ch q : String) (s : LoopState)
    (h : agentLoop reg cfg sys o ch q cfg.max_iterations initState = .ok s) :
    runState reg cfg sys o gen ch q =
      if decide (cfg.max_iterations ≤ s.iteration) && !s.is_finished then
        .ok { s with final_result := some (.str (generateForcedAnswer gen q s.accumulated_context)) }
      else .ok s := by
  unfold runState
  rw [h]

lemma runState_of_loop_ok_fuel (reg : List Tool) (cfg : AgentConfig) (sys : String)
    (o : Nat → String → Option LLMResponse) (gen : String → Except PyErr GenResp)
    (ch q : String) (fuel : Nat) (s : LoopState)
    (hfuel : cfg.max_iterations = fuel)
    (h : agentLoop reg cfg sys o ch q fuel initState = .ok s) :
    runState reg cfg sys o gen ch q =
      if decide (cfg.max_iterations ≤ s.iteration) && !s.is_finished then
        .ok { s with final_result := some (.str (generateForcedAnswer gen q s.accumulated_context)) }
      else .ok s := by
  subst hfuel
  exact runState_of_loop_ok reg cfg sys o gen ch q s h

lemma run_of_runState_ok (reg : List Tool) (cfg : AgentConfig) (sys : String)
    (o : Nat → String → Option LLMResponse) (gen : String → Except PyErr GenResp)
    (ch q : String) (hist : List ChatMsg) (s : LoopState)
    (h : runState reg cfg sys o gen ch q = .ok s) :
    Agent.run reg cfg sys o gen ch q hist =
      .ok { response := finalResponse s.final_result,
            sources := s.sources_used, iterations := s.iteration } := by
  unfold Agent.run
  rw [h]

/-- C1 as stated is false on the code: when the oracle's tool-call
arguments do not match the selected tool's declared parameters, the
keyword binding of `tool.execute(**tool_input)` raises a `TypeError`
that neither `_execute_tool` nor `run()` catches, so `run()` propagates
an exception instead of returning a structure.  Here the oracle calls
`search_documents` with no `query` argument. -/
theorem claim_C1_counterexample :
    raised (Agent.run demoRegistry {} RAG_AGENT_SYSTEM_PROMPT badArgsOracle demoGen
      "ch" "q" []) = true := rfl

/-- C1 amended: for every registry of tools whose `execute` bodies
honor the never-raise contract, and every oracle whose tool-call
arguments bind to the selected tool's signature, `run()` never
propagates an exception and returns a well-formed
`{response, sources, iterations}` structure. -/
theorem claim_C1_amended_no_throw (reg : List Tool) (cfg : AgentConfig) (sys : String)
    (oracle : Nat → String → Option LLMResponse) (gen : String → Except PyErr GenResp)
    (ch q : String) (hist : List ChatMsg)
    (hbody : ∀ t ∈ reg, ∀ c a, raised (t.body c a) = false)
    (hbind : ∀ n pr resp tc t, oracle n pr = some resp → resp.tool_call = some tc →
      tc.name ≠ "finish" → registryGet reg tc.name = some t → bindOk t tc.args = true) :
    ∃ r, Agent.run reg cfg sys oracle gen ch q hist = .ok r := by
  obtain ⟨s2, hs2⟩ :=
    agentLoop_no_raise reg cfg sys oracle ch q hbody hbind cfg.max_iterations initState
  rcases hrs : runState reg cfg sys oracle gen ch q with e | s
  · rw [runState_of_loop_ok reg cfg sys oracle gen ch q s2 hs2] at hrs
    split at hrs <;> exact Except.noConfusion hrs
  · exact ⟨_, run_of_runState_ok reg cfg sys oracle gen ch q hist s hrs⟩

theorem claim_C1_witness :
    (∀ t ∈ demoRegistry, ∀ c a, raised (t.body c a) = false) ∧
    (∀ n pr resp tc t, searchOracle n pr = some resp → resp.tool_call = some tc →
      tc.name ≠ "finish" → registryGet demoRegistry tc.name = some t →
      bindOk t tc.args = true) ∧
    ∃ r, Agent.run demoRegistry {} RAG_AGENT_SYSTEM_PROMPT searchOracle demoGen
      "ch" "q" [] = .ok r := by
  have hbody : ∀ t ∈ demoRegistry, ∀ c a, raised (t.body c a) = false := by
    intro t ht c a
    simp only [demoRegistry, defaultRegistry, List.mem_cons, List.not_mem_nil, or_false] at ht
    rcases ht with h | h <;> subst h <;> rfl
  have hbind : ∀ n pr resp tc t, searchOracle n pr = some resp → resp.tool_call = some tc →
      tc.name ≠ "finish" → registryGet demoRegistry tc.name = some t →
      bindOk t tc.args = true := by
    intro n pr resp tc t h1 h2 h3 h4
    injection h1 with h1b
    subst h1b
    injection h2 with h2b
    subst h2b
    injection h4 with h4b
    subst h4b
    rfl
  exact ⟨hbody, hbind,
    claim_C1_amended_no_throw demoRegistry {} RAG_AGENT_SYSTEM_PROMPT searchOracle demoGen
      "ch" "q" [] hbody hbind⟩

/-- C2 as stated is false on the code: when the oracle failure happens
on the final allowed iteration, the loop breaks with
`final_result = "Failed to get response from AI."` but `is_finished`
still false, so the budget-exhaustion fallback overwrites the fixed
string with a forced answer.  Here `max_iterations = 1`, the oracle
fails on iteration 1, and the returned response is the forced answer,
not the fixed failure string. -/
theorem claim_C2_counterexample :
    Agent.run demoRegistry { max_iterations := 1 } RAG_AGENT_SYSTEM_PROMPT failingOracle
      demoGen "ch" "q" [] =
      .ok { response := .str "forced answer", sources := [], iterations := 1 } ∧
    JValue.str "forced answer" ≠ JValue.str "Failed to get response from AI." :=
  ⟨rfl, by decide⟩

/-- C2 amended: when the tool-selection oracle call fails (raises or
returns nothing usable) on an iteration strictly before the last one,
`run()` breaks the loop immediately — no retry, exactly `k` oracle
calls — returns the fixed string "Failed to get response from AI." as
the response, and no exception escapes.  (On the final iteration the
fixed string is overwritten by the forced-answer fallback.) -/
theorem claim_C2_oracle_failure (reg : List Tool) (cfg : AgentConfig) (sys : String)
    (oracle : Nat → String → Option LLMResponse) (gen : String → Except PyErr GenResp)
    (ch q : String) (hist : List ChatMsg) (k : Nat)
    (hk1 : 1 ≤ k) (hkN : k < cfg.max_iterations)
    (hmid : ∀ i, i < k - 1 → ∀ pr, ∃ resp tc r, oracle i pr = some resp ∧
      resp.tool_call = some tc ∧ tc.name ≠ "finish" ∧
      executeTool reg cfg ch tc.name tc.args = .ok r)
    (hfail : ∀ pr, oracle (k - 1) pr = none) :
    ∃ r, Agent.run reg cfg sys oracle gen ch q hist = .ok r ∧
      r.response = .str "Failed to get response from AI." ∧ r.iterations = k := by
  obtain ⟨s2, hL, hit, hfr, hsf⟩ :=
    agentLoop_oracle_fail reg cfg sys oracle ch q (k - 1) cfg.max_iterations initState
      rfl (Nat.zero_le _) (show k - 1 - 0 < cfg.max_iterations by omega)
      (by
        intro i hi1 hi2 pr
        exact hmid i hi2 pr)
      hfail
  have hrs := runState_of_loop_ok reg cfg sys oracle gen ch q s2 hL
  rw [if_neg (by
    rw [hit, hsf]
    simp
    omega)] at hrs
  refine ⟨_, run_of_runState_ok reg cfg sys oracle gen ch q hist s2 hrs, ?_, ?_⟩
  · show finalResponse s2.final_result = _
    rw [hfr]
    rfl
  · show s2.iteration = k
    rw [hit]
    omega

theorem claim_C2_witness :
    ((1 : Nat) ≤ 2 ∧ 2 < ({} : AgentConfig).max_iterations ∧
      (∀ pr, failAfterSearchOracle (2 - 1) pr = none)) ∧
    ∃ r, Agent.run demoRegistry {} RAG_AGENT_SYSTEM_PROMPT failAfterSearchOracle demoGen
      "ch" "q" [] = .ok r ∧
      r.response = .str "Failed to get response from AI." ∧ r.iterations = 2 := by
  refine ⟨⟨by omega, by decide, fun pr => rfl⟩, ?_⟩
  refine claim_C2_oracle_failure demoRegistry {} RAG_AGENT_SYSTEM_PROMPT failAfterSearchOracle
    demoGen "ch" "q" [] 2 (by omega) (by decide) ?_ (fun pr => rfl)
  intro i hi pr
  have hi0 : i = 0 := by omega
  subst hi0
  exact ⟨_, _, _, rfl, rfl, by decide, rfl⟩

/-- C3: the loop issues at most `max_iterations` tool-selection oracle
calls — the result of `run()` is unchanged by any modification of the
oracle at call indices `≥ max_iterations` — and the `iterations` field
of a returned structure never exceeds `max_iterations`. -/
theorem claim_C3_budget (reg : List Tool) (cfg : AgentConfig) (sys : String)
    (oracle oracle2 : Nat → String → Option LLMResponse) (gen : String → Except PyErr GenResp)
    (ch q : String) (hist : List ChatMsg)
    (hagree : ∀ i, i < cfg.max_iterations → ∀ pr, oracle i pr = oracle2 i pr) :
    Agent.run reg cfg sys oracle gen ch q hist = Agent.run reg cfg sys oracle2 gen ch q hist ∧
    iterationsOf (Agent.run reg cfg sys oracle gen ch q hist) ≤ cfg.max_iterations := by
  have hcongr : agentLoop reg cfg sys oracle ch q cfg.max_iterations initState =
      agentLoop reg cfg sys oracle2 ch q cfg.max_iterations initState := by
    apply agentLoop_oracle_congr
    intro i pr hi1 hi2
    have hi3 : i < 0 + cfg.max_iterations := hi2
    exact hagree i (by omega) pr
  constructor
  · unfold Agent.run runState
    rw [hcongr]
  · rcases hA : agentLoop reg cfg sys oracle ch q cfg.max_iterations initState with e | s2
    · unfold Agent.run runState
      rw [hA]
      simp [iterationsOf]
    · have hle := agentLoop_iteration_le reg cfg sys oracle ch q cfg.max_iterations
        initState s2 hA
      have hle2 : s2.iteration ≤ 0 + cfg.max_iterations := hle
      have hrs := runState_of_loop_ok reg cfg sys oracle gen ch q s2 hA
      split at hrs
      · rw [run_of_runState_ok reg cfg sys oracle gen ch q hist _ hrs]
        show s2.iteration ≤ cfg.max_iterations
        omega
      · rw [run_of_runState_ok reg cfg sys oracle gen ch q hist _ hrs]
        show s2.iteration ≤ cfg.max_iterations
        omega

theorem claim_C3_witness :
    (∀ i, i < ({} : AgentConfig).max_iterations → ∀ pr,
      searchOracle i pr = searchOracle i pr) ∧
    Agent.run demoRegistry {} RAG_AGENT_SYSTEM_PROMPT searchOracle demoGen "ch" "q" [] =
      Agent.run demoRegistry {} RAG_AGENT_SYSTEM_PROMPT searchOracle demoGen "ch" "q" [] ∧
    iterationsOf (Agent.run demoRegistry {} RAG_AGENT_SYSTEM_PROMPT searchOracle demoGen
      "ch" "q" []) ≤ ({} : AgentConfig).max_iterations :=
  ⟨fun _ _ _ => rfl,
    claim_C3_budget demoRegistry {} RAG_AGENT_SYSTEM_PROMPT searchOracle searchOracle demoGen
      "ch" "q" [] (fun _ _ _ => rfl)⟩

/-- C4 as stated is false on the code for one value of the answer: the
`final_result or "No response generated."` fallback treats the empty
string as falsy, so `finish` with `{answer: ""}` yields the response
"No response generated.", not `""`. -/
theorem claim_C4_counterexample :
    Agent.run demoRegistry {} RAG_AGENT_SYSTEM_PROMPT emptyAnswerOracle demoGen "ch" "q" [] =
      .ok { response := .str "No response generated.", sources := [], iterations := 1 } ∧
    JValue.str "No response generated." ≠ JValue.str "" :=
  ⟨rfl, by decide⟩

/-- C4 amended: if the oracle's first tool call of a run is `finish`,
`run()` returns after exactly one iteration with no tool executed
(empty observation log); the response is the `answer` argument when it
is a non-empty string (an empty answer falls back to the literal
"No response generated.") and defaults to "Task completed." when the
argument is absent; and when the call carries a `sources_used` list,
its entries become the run's sources as `{source: name, content: ""}`
(no entries when it is absent). -/
theorem claim_C4_finish_short_circuit (reg : List Tool) (cfg : AgentConfig) (sys : String)
    (oracle : Nat → String → Option LLMResponse) (gen : String → Except PyErr GenResp)
    (ch q : String) (hist : List ChatMsg) (resp : LLMResponse) (fargs : Args)
    (hN : 1 ≤ cfg.max_iterations)
    (h0 : oracle 0 (buildPrompt cfg sys q []) = some resp)
    (htc : resp.tool_call = some { name := "finish", args := fargs }) :
    ∃ st, runState reg cfg sys oracle gen ch q = .ok st ∧ st.observations = [] ∧
      Agent.run reg cfg sys oracle gen ch q hist =
        .ok { response := finalResponse (some (Args.getD fargs "answer" (.str "Task completed."))),
              sources := finishSources fargs, iterations := 1 } ∧
      (∀ x, Args.get? fargs "answer" = some (.str x) → x ≠ "" →
        finalResponse (some (Args.getD fargs "answer" (.str "Task completed."))) = .str x) ∧
      (Args.get? fargs "answer" = none →
        finalResponse (some (Args.getD fargs "answer" (.str "Task completed."))) =
          .str "Task completed.") ∧
      (∀ xs, Args.get? fargs "sources_used" = some (.strList xs) →
        finishSources fargs = xs.map (fun n => { source := n, content := "" })) ∧
      (Args.get? fargs "sources_used" = none → finishSources fargs = []) := by
  obtain ⟨m, hm⟩ : ∃ m, cfg.max_iterations = m + 1 := ⟨cfg.max_iterations - 1, by omega⟩
  have hL : agentLoop reg cfg sys oracle ch q cfg.max_iterations initState =
      .ok { initState with iteration := 1, is_finished := true,
                           final_result := some (Args.getD fargs "answer" (.str "Task completed.")),
                           sources_used := [] ++ finishSources fargs } := by
    rw [hm]
    exact agentLoop_step_finish reg cfg sys oracle ch q m initState resp
      { name := "finish", args := fargs } h0 htc rfl
  have hrs := runState_of_loop_ok reg cfg sys oracle gen ch q _ hL
  rw [if_neg (by simp)] at hrs
  refine ⟨_, hrs, rfl, ?_, ?_, ?_, ?_, ?_⟩
  · have hrun := run_of_runState_ok reg cfg sys oracle gen ch q hist _ hrs
    rw [hrun]
    rfl
  · intro x hx hne
    rw [Args.getD, hx]
    show finalResponse (some (.str x)) = .str x
    simp only [finalResponse]
    rw [if_neg (by simp [jFalsy, hne])]
  · intro hx
    rw [Args.getD, hx]
    rfl
  · intro xs hxs
    unfold finishSources
    rw [hxs]
    rfl
  · intro hx
    unfold finishSources
    rw [hx]

theorem claim_C4_witness :
    (1 ≤ ({} : AgentConfig).max_iterations ∧
      finishOracle 0 (buildPrompt {} RAG_AGENT_SYSTEM_PROMPT "q" []) =
        some { tool_call := some { name := "finish", args := finishArgs } }) ∧
    ∃ st, runState demoRegistry {} RAG_AGENT_SYSTEM_PROMPT finishOracle demoGen "ch" "q" =
        .ok st ∧ st.observations = [] ∧
      Agent.run demoRegistry {} RAG_AGENT_SYSTEM_PROMPT finishOracle demoGen "ch" "q" [] =
        .ok { response := finalResponse (some (Args.getD finishArgs "answer" (.str "Task completed."))),
              sources := finishSources finishArgs, iterations := 1 } ∧
      (∀ x, Args.get? finishArgs "answer" = some (.str x) → x ≠ "" →
        finalResponse (some (Args.getD finishArgs "answer" (.str "Task completed."))) = .str x) ∧
      (Args.get? finishArgs "answer" = none →
        finalResponse (some (Args.getD finishArgs "answer" (.str "Task completed."))) =
          .str "Task completed.") ∧
      (∀ xs, Args.get? finishArgs "sources_used" = some (.strList xs) →
        finishSources finishArgs = xs.map (fun n => { source := n, content := "" })) ∧
      (Args.get? finishArgs "sources_used" = none → finishSources finishArgs = []) :=
  ⟨⟨by decide, rfl⟩,
    claim_C4_finish_short_circuit demoRegistry {} RAG_AGENT_SYSTEM_PROMPT finishOracle demoGen
      "ch" "q" [] { tool_call := some { name := "finish", args := finishArgs } } finishArgs
      (by decide) rfl rfl⟩

/-- C6: an oracle tool call naming a tool absent from the registry does
not terminate the run: `_execute_tool` synthesizes a failed
`ToolResult` with the `Unknown tool` message, the failure is recorded
as an observation, and the loop proceeds to a second iteration
(consuming one iteration of budget).  Here the run then ends on the
second call's plain-text response, with `iterations = 2`. -/
theorem claim_C6_unknown_tool (reg : List Tool) (cfg : AgentConfig) (sys : String)
    (oracle : Nat → String → Option LLMResponse) (gen : String → Except PyErr GenResp)
    (ch q : String) (hist : List ChatMsg) (resp resp2 : LLMResponse)
    (nm : String) (args : Args)
    (hN : 2 ≤ cfg.max_iterations)
    (h0 : oracle 0 (buildPrompt cfg sys q []) = some resp)
    (htc : resp.tool_call = some { name := nm, args := args })
    (hnm : nm ≠ "finish")
    (habs : registryGet reg nm = none)
    (h1 : ∀ pr, oracle 1 pr = some resp2)
    (htc2 : resp2.tool_call = none) :
    executeTool reg cfg ch nm args =
      .ok { success := false, output := "", error := some (unknownToolMsg nm reg) } ∧
    ∃ st, runState reg cfg sys oracle gen ch q = .ok st ∧
      st.observations = [{ thinking := resp.thinking, tool_name := nm, tool_input := args,
                           result := { success := false, output := "",
                                       error := some (unknownToolMsg nm reg) } }] ∧
      Agent.run reg cfg sys oracle gen ch q hist =
        .ok { response := finalResponse (some (.str (resp2.text.getD "No response generated."))),
              sources := [], iterations := 2 } := by
  have hexec : executeTool reg cfg ch nm args =
      .ok { success := false, output := "", error := some (unknownToolMsg nm reg) } := by
    unfold executeTool
    rw [habs]
  obtain ⟨m, hm⟩ : ∃ m, cfg.max_iterations = m + 1 + 1 := ⟨cfg.max_iterations - 2, by omega⟩
  have hs1 := agentLoop_step_tool reg cfg sys oracle ch q (m + 1) initState resp
    { name := nm, args := args }
    { success := false, output := "", error := some (unknownToolMsg nm reg) }
    h0 htc (beq_eq_false_iff_ne.mpr hnm) hexec
  have hs2 := agentLoop_step_text reg cfg sys oracle ch q m
    (stepState initState resp { name := nm, args := args }
      { success := false, output := "", error := some (unknownToolMsg nm reg) })
    resp2 (h1 _) htc2
  have hrs := runState_of_loop_ok_fuel reg cfg sys oracle gen ch q (m + 1 + 1) _ hm
    (hs1.trans hs2)
  rw [if_neg (by simp)] at hrs
  have hrun := run_of_runState_ok reg cfg sys oracle gen ch q hist _ hrs
  refine ⟨hexec, _, hrs, rfl, ?_⟩
  rw [hrun]
  simp [stepState, initState, Bool.and_false]

theorem claim_C6_witness :
    (2 ≤ ({} : AgentConfig).max_iterations ∧
      unknownToolOracle 0 (buildPrompt {} RAG_AGENT_SYSTEM_PROMPT "q" []) =
        some { tool_call := some { name := "bogus_tool", args := [] } } ∧
      ("bogus_tool" : String) ≠ "finish" ∧
      registryGet demoRegistry "bogus_tool" = none ∧
      (∀ pr, unknownToolOracle 1 pr = some { text := some "done" })) ∧
    executeTool demoRegistry {} "ch" "bogus_tool" [] =
      .ok { success := false, output := "",
            error := some (unknownToolMsg "bogus_tool" demoRegistry) } ∧
    ∃ st, runState demoRegistry {} RAG_AGENT_SYSTEM_PROMPT unknownToolOracle demoGen "ch" "q" =
        .ok st ∧
      st.observations = [{ thinking := none, tool_name := "bogus_tool", tool_input := [],
                           result := { success := false, output := "",
                                       error := some (unknownToolMsg "bogus_tool" demoRegistry) } }] ∧
      Agent.run demoRegistry {} RAG_AGENT_SYSTEM_PROMPT unknownToolOracle demoGen "ch" "q" [] =
        .ok { response := finalResponse (some (.str (Option.getD (some "done")
                "No response generated."))),
              sources := [], iterations := 2 } :=
  ⟨⟨by decide, rfl, by decide, rfl, fun _ => rfl⟩,
    claim_C6_unknown_tool demoRegistry {} RAG_AGENT_SYSTEM_PROMPT unknownToolOracle demoGen
      "ch" "q" [] { tool_call := some { name := "bogus_tool", args := [] } }
      { text := some "done" } "bogus_tool" [] (by decide) rfl rfl (by decide) rfl
      (fun _ => rfl) rfl⟩

lemma finalResponse_str_ne_empty (g : String) :
    finalResponse (some (.str g)) ≠ .str "" := by
  simp only [finalResponse]
  by_cases hg : jFalsy (.str g) = true
  · rw [if_pos hg]
    decide
  · rw [if_neg hg]
    intro hcontra
    injection hcontra with h2
    exact hg (by rw [h2]; rfl)

/-- C7: when the iteration budget is exhausted without a finished
state, the forced answer is generated from a prompt that depends only
on the accumulated `search_documents` results (entries of every other
tool are filtered out), and a run with `max_iterations = 1` against an
oracle that always requests `search_documents` (never `finish`) still
returns a non-empty response after exactly 1 iteration, produced by the
forced-answer path. -/
theorem claim_C7_fallback (fn : String → JValue → Except PyErr SearchResp)
    (cfg : AgentConfig) (sys : String) (oracle : Nat → String → Option LLMResponse)
    (gen : String → Except PyErr GenResp) (ch q : String) (hist : List ChatMsg)
    (hN : cfg.max_iterations = 1)
    (horacle : ∀ n pr, ∃ t th qq, oracle n pr =
      some { text := t, thinking := th,
             tool_call := some { name := "search_documents", args := [("query", .str qq)] } }) :
    (∀ q2 ctx, forcedPrompt q2 ctx =
      forcedPrompt q2 (ctx.filter (fun c => c.tool == "search_documents"))) ∧
    ∃ st, runState (defaultRegistry fn) cfg sys oracle gen ch q = .ok st ∧
      st.is_finished = false ∧ st.iteration = 1 ∧
      st.final_result = some (.str (generateForcedAnswer gen q st.accumulated_context)) ∧
      Agent.run (defaultRegistry fn) cfg sys oracle gen ch q hist =
        .ok { response := finalResponse st.final_result,
              sources := st.sources_used, iterations := 1 } ∧
      finalResponse st.final_result ≠ .str "" := by
  constructor
  · intro q2 ctx
    unfold forcedPrompt
    rw [List.filter_filter]
    simp
  · obtain ⟨t, th, qq, h0⟩ := horacle 0 (buildPrompt cfg sys q [])
    have hs1 := agentLoop_step_tool (defaultRegistry fn) cfg sys oracle ch q 0 initState
      { text := t, thinking := th,
        tool_call := some { name := "search_documents", args := [("query", .str qq)] } }
      { name := "search_documents", args := [("query", .str qq)] }
      (truncateResult cfg (SearchDocumentsTool.execute (some ch) fn (.str qq)))
      h0 rfl rfl rfl
    have hrs := runState_of_loop_ok_fuel (defaultRegistry fn) cfg sys oracle gen ch q (0 + 1) _
      hN (hs1.trans rfl)
    rw [if_pos (by rw [hN]; rfl)] at hrs
    have hrun := run_of_runState_ok (defaultRegistry fn) cfg sys oracle gen ch q hist _ hrs
    exact ⟨_, hrs, rfl, rfl, rfl, hrun, finalResponse_str_ne_empty _⟩

theorem claim_C7_witness :
    (({ max_iterations := 1 } : AgentConfig).max_iterations = 1 ∧
      ∀ n pr, ∃ t th qq, searchOracle n pr =
        some { text := t, thinking := th,
               tool_call := some { name := "search_documents", args := [("query", .str qq)] } }) ∧
    ((∀ q2 ctx, forcedPrompt q2 ctx =
      forcedPrompt q2 (ctx.filter (fun c => c.tool == "search_documents"))) ∧
    ∃ st, runState (defaultRegistry demoSearchFn) { max_iterations := 1 }
        RAG_AGENT_SYSTEM_PROMPT searchOracle demoGen "ch" "q" = .ok st ∧
      st.is_finished = false ∧ st.iteration = 1 ∧
      st.final_result = some (.str (generateForcedAnswer demoGen "q" st.accumulated_context)) ∧
      Agent.run (defaultRegistry demoSearchFn) { max_iterations := 1 }
          RAG_AGENT_SYSTEM_PROMPT searchOracle demoGen "ch" "q" [] =
        .ok { response := finalResponse st.final_result,
              sources := st.sources_used, iterations := 1 } ∧
      finalResponse st.final_result ≠ .str "") :=
  ⟨⟨rfl, fun _ _ => ⟨none, none, "revenue", rfl⟩⟩,
    claim_C7_fallback demoSearchFn { max_iterations := 1 } RAG_AGENT_SYSTEM_PROMPT searchOracle
      demoGen "ch" "q" [] rfl (fun _ _ => ⟨none, none, "revenue", rfl⟩)⟩

/-- The failed `ToolResult` produced by the search tool when its
channel state is falsy. -/
lemma stepState_iteration (s : LoopState) (resp : LLMResponse) (tc : ToolCall)
    (result : ToolResult) : (stepState s resp tc result).iteration = s.iteration + 1 := rfl

lemma stepState_observations_length (s : LoopState) (resp : LLMResponse) (tc : ToolCall)
    (result : ToolResult) :
    (stepState s resp tc result).observations.length = s.observations.length + 1 := by
  simp [stepState]

lemma agentLoop_empty_channel_all_fail (fn : String → JValue → Except PyErr SearchResp)
    (cfg : AgentConfig) (sys : String) (oracle : Nat → String → Option LLMResponse) (q : String)
    (horacle : ∀ n pr, ∃ t th qq, oracle n pr =
      some { text := t, thinking := th,
             tool_call := some { name := "search_documents", args := [("query", .str qq)] } }) :
    ∀ fuel s, s.is_finished = false →
      (∀ o ∈ s.observations, o.tool_name = "search_documents" ∧ o.result = channelNotSetResult) →
      ∃ s2, agentLoop (defaultRegistry fn) cfg sys oracle "" q fuel s = .ok s2 ∧
        s2.iteration = s.iteration + fuel ∧ s2.is_finished = false ∧
        s2.observations.length = s.observations.length + fuel ∧
        ∀ o ∈ s2.observations,
          o.tool_name = "search_documents" ∧ o.result = channelNotSetResult := by
  intro fuel
  induction fuel with
  | zero => intro s hf hobs; exact ⟨s, rfl, rfl, hf, rfl, hobs⟩
  | succ n ih =>
      intro s hf hobs
      obtain ⟨t, th, qq, h0⟩ := horacle s.iteration (buildPrompt cfg sys q s.accumulated_context)
      have hs1 := agentLoop_step_tool (defaultRegistry fn) cfg sys oracle "" q n s
        { text := t, thinking := th,
          tool_call := some { name := "search_documents", args := [("query", .str qq)] } }
        { name := "search_documents", args := [("query", .str qq)] }
        channelNotSetResult h0 rfl rfl rfl
      rw [hs1]
      obtain ⟨s2, hL, hit, hf2, hlen, hobs2⟩ := ih
        (stepState s
          { text := t, thinking := th,
            tool_call := some { name := "search_documents", args := [("query", .str qq)] } }
          { name := "search_documents", args := [("query", .str qq)] }
          channelNotSetResult)
        hf
        (by
          intro o ho
          have ho2 : o ∈ s.observations ++
              [{ thinking := th, tool_name := "search_documents",
                 tool_input := [("query", JValue.str qq)], result := channelNotSetResult }] := ho
          rw [List.mem_append] at ho2
          rcases ho2 with h | h
          · exact hobs o h
          · rw [List.mem_singleton] at h
            subst h
            exact ⟨rfl, rfl⟩)
      refine ⟨s2, hL, ?_, hf2, ?_, hobs2⟩
      · rw [stepState_iteration] at hit
        omega
      · rw [stepState_observations_length] at hlen
        omega

/-- C10: when `Agent.run` is called with `channel_id = ""`, every
`search_documents` dispatch in the run fails with the channel-not-set
error — the agent does call `set_channel_id` before each dispatch, but
the tool tests `_channel_id` for falsiness, and the empty string is
falsy — so every recorded observation of such a run is that failure,
one per iteration. -/
theorem claim_C10_empty_channel (fn : String → JValue → Except PyErr SearchResp)
    (cfg : AgentConfig) (sys : String) (oracle : Nat → String → Option LLMResponse)
    (gen : String → Except PyErr GenResp) (q : String)
    (horacle : ∀ n pr, ∃ t th qq, oracle n pr =
      some { text := t, thinking := th,
             tool_call := some { name := "search_documents", args := [("query", .str qq)] } }) :
    channelFalsy (some "") = true ∧
    (∀ args, bindOk (searchTool fn) args = true →
      executeTool (defaultRegistry fn) cfg "" "search_documents" args =
        .ok channelNotSetResult) ∧
    ∃ st, runState (defaultRegistry fn) cfg sys oracle gen "" q = .ok st ∧
      st.observations.length = cfg.max_iterations ∧
      ∀ o ∈ st.observations,
        o.tool_name = "search_documents" ∧ o.result = channelNotSetResult := by
  refine ⟨rfl, ?_, ?_⟩
  · intro args hb
    unfold executeTool
    split
    · rename_i hnone
      rw [show registryGet (defaultRegistry fn) "search_documents" = some (searchTool fn)
        from rfl] at hnone
      exact Option.noConfusion hnone
    · rename_i tool hsome
      rw [show registryGet (defaultRegistry fn) "search_documents" = some (searchTool fn)
        from rfl] at hsome
      injection hsome with h2
      subst h2
      rw [if_pos hb]
      rfl
  · obtain ⟨s2, hL, hit, hf2, hlen, hobs⟩ :=
      agentLoop_empty_channel_all_fail fn cfg sys oracle q horacle cfg.max_iterations
        initState rfl
        (by
          intro o ho
          have ho2 : o ∈ ([] : List Observation) := ho
          exact absurd ho2 (List.not_mem_nil o))
    have hrs := runState_of_loop_ok (defaultRegistry fn) cfg sys oracle gen "" q s2 hL
    rw [if_pos (by
      rw [hf2, hit]
      have hit0 : initState.iteration = 0 := rfl
      rw [hit0]
      simp)] at hrs
    refine ⟨_, hrs, ?_, ?_⟩
    · show s2.observations.length = cfg.max_iterations
      have hlen2 : s2.observations.length = ([] : List Observation).length +
          cfg.max_iterations := hlen
      simp at hlen2
      exact hlen2
    · intro o ho
      exact hobs o ho

theorem claim_C10_witness :
    (∀ n pr, ∃ t th qq, searchOracle n pr =
      some { text := t, thinking := th,
             tool_call := some { name := "search_documents", args := [("query", .str qq)] } }) ∧
    channelFalsy (some "") = true ∧
    (∀ args, bindOk (searchTool demoSearchFn) args = true →
      executeTool (defaultRegistry demoSearchFn) {} "" "search_documents" args =
        .ok channelNotSetResult) ∧
    ∃ st, runState (defaultRegistry demoSearchFn) {} RAG_AGENT_SYSTEM_PROMPT searchOracle
        demoGen "" "q" = .ok st ∧
      st.observations.length = ({} : AgentConfig).max_iterations ∧
      ∀ o ∈ st.observations,
        o.tool_name = "search_documents" ∧ o.result = channelNotSetResult :=
  ⟨fun _ _ => ⟨none, none, "revenue", rfl⟩,
    claim_C10_empty_channel demoSearchFn {} RAG_AGENT_SYSTEM_PROMPT searchOracle demoGen "q"
      (fun _ _ => ⟨none, none, "revenue", rfl⟩)⟩

end Docuchat
